import Mathlib

/-
Verification of the simpa volumetric tissue-property compositing core.

The Lean definitions below are a shallow embedding of the Python sources:
  * src/simpa/utils/libraries/spectra_library.py      (AbsorptionSpectrum)
  * src/simpa/utils/libraries/molecule_library.py     (Molecule, MolecularComposition)
  * src/simpa/core/simulation_modules/volume_creation_module/
      volume_creation_module_model_based_adapter.py    (ModelBasedVolumeCreationAdapter)

Python floats are embedded as rationals; numpy arrays as lists; numpy array
indexing (with its negative-index wraparound) as an explicit bounds-checked
lookup returning Option.  All tensor operations of the compositor loop are
elementwise over voxels, so the compositor is embedded per voxel.
-/

namespace Simpa

/-! Python-style list indexing

numpy 1-D arrays index like Python lists: a negative index `i` with
`-len ≤ i` wraps to `len + i`; anything further out raises IndexError,
modelled here as `none`. -/

/-- Index normalization of Python sequences: a negative index counts from
the end of a length-`n` sequence. -/
def pyIdx (n : ℕ) (i : ℤ) : ℤ :=
  if i < 0 then i + n else i

def pyGet (l : List ℚ) (i : ℤ) : Option ℚ :=
  if 0 ≤ pyIdx l.length i ∧ pyIdx l.length i < (l.length : ℤ) then
    some (l.getD (pyIdx l.length i).toNat 0)
  else none

/-! Linear resampling, np.interp

`np.interp(x, xp, fp)` with `xp` ascending: clamps to the first/last sample
outside the domain and interpolates linearly between neighbouring samples
inside it.  The point list is `xp.zip fp`. -/

def np_interp (x : ℚ) : List (ℚ × ℚ) → ℚ
  | [] => 0
  | [(_, f1)] => f1
  | (x1, f1) :: (x2, f2) :: rest =>
      if x ≤ x1 then f1
      else if x ≤ x2 then f1 + (f2 - f1) * (x - x1) / (x2 - x1)
      else np_interp x ((x2, f2) :: rest)

/-! AbsorptionSpectrum (spectra_library.py) -/

structure AbsorptionSpectrum where
  spectrum_name : String
  wavelengths : List ℤ
  absorption_per_centimeter : List ℚ
deriving DecidableEq

def listMaxZ : List ℤ → ℤ
  | [] => 0
  | x :: xs => xs.foldl max x

def listMinZ : List ℤ → ℤ
  | [] => 0
  | x :: xs => xs.foldl min x

def AbsorptionSpectrum.max_wavelength (s : AbsorptionSpectrum) : ℤ :=
  listMaxZ s.wavelengths

def AbsorptionSpectrum.min_wavelength (s : AbsorptionSpectrum) : ℤ :=
  listMinZ s.wavelengths

/-- The sample points `(wavelength, absorption)` fed to `np.interp`. -/
def AbsorptionSpectrum.points (s : AbsorptionSpectrum) : List (ℚ × ℚ) :=
  (s.wavelengths.map (fun w => (w : ℚ))).zip s.absorption_per_centimeter

/-- Source field `new_absorptions`: the table resampled onto every integer wavelength
between `min_wavelength` and `max_wavelength` (inclusive), built in
`AbsorptionSpectrum.__init__`. -/
def AbsorptionSpectrum.new_absorptions (s : AbsorptionSpectrum) : List ℚ :=
  (List.range (s.max_wavelength + 1 - s.min_wavelength).toNat).map
    (fun i : ℕ => np_interp ((s.min_wavelength : ℚ) + (i : ℚ)) s.points)

/-- Source method `get_absorption_for_wavelength`: reads `new_absorptions[wavelength - min_wavelength]`
with no bounds guard of its own, so the numpy indexing semantics (negative
wraparound, IndexError out of range) apply. -/
def AbsorptionSpectrum.get_absorption_for_wavelength
    (s : AbsorptionSpectrum) (wavelength : ℤ) : Option ℚ :=
  pyGet s.new_absorptions (wavelength - s.min_wavelength)

/-- Source method `AbsorptionSpectrum.__eq__`: it evaluates
`(name == name, wavelengths == wavelengths, absorption == absorption)` —
a 3-tuple whose last two components are numpy elementwise comparisons. -/
def spectrum_eq (a b : AbsorptionSpectrum) : Bool × List Bool × List Bool :=
  (a.spectrum_name == b.spectrum_name,
   List.zipWith (fun x y => x == y) a.wavelengths b.wavelengths,
   List.zipWith (fun x y => x == y) a.absorption_per_centimeter b.absorption_per_centimeter)

/-- CPython truthiness of a 3-tuple: `bool(t)` is `len(t) > 0`, which is
true for every 3-tuple regardless of its components. -/
def py_bool_of_triple (_ : Bool × List Bool × List Bool) : Bool :=
  true

/-- Library spectrum `CONSTANT_ABSORBER_ARBITRARY(c)`: two sample
points `([450, 1000], [c, c])`. -/
def constSpec (c : ℚ) : AbsorptionSpectrum :=
  ⟨"Constant Absorber (1)", [450, 1000], [c, c]⟩

/-- The table length `L = max_wavelength - min_wavelength + 1` of the claim. -/
def tableLen (s : AbsorptionSpectrum) : ℤ :=
  s.max_wavelength - s.min_wavelength + 1

lemma foldl_min_le (xs : List ℤ) : ∀ x : ℤ, xs.foldl min x ≤ x := by
  induction xs with
  | nil => intro x; exact le_refl x
  | cons y ys ih =>
      intro x
      calc (y :: ys).foldl min x = ys.foldl min (min x y) := rfl
        _ ≤ min x y := ih (min x y)
        _ ≤ x := min_le_left x y

lemma le_foldl_max (xs : List ℤ) : ∀ x : ℤ, x ≤ xs.foldl max x := by
  induction xs with
  | nil => intro x; exact le_refl x
  | cons y ys ih =>
      intro x
      calc x ≤ max x y := le_max_left x y
        _ ≤ ys.foldl max (max x y) := ih (max x y)
        _ = (y :: ys).foldl max x := rfl

lemma min_wavelength_le_max_wavelength (s : AbsorptionSpectrum) :
    s.min_wavelength ≤ s.max_wavelength := by
  unfold AbsorptionSpectrum.min_wavelength AbsorptionSpectrum.max_wavelength
  cases h : s.wavelengths with
  | nil => simp [listMinZ, listMaxZ]
  | cons x xs =>
      simp only [listMinZ, listMaxZ]
      exact le_trans (foldl_min_le xs x) (le_foldl_max xs x)

lemma tableLen_pos (s : AbsorptionSpectrum) : 0 < tableLen s := by
  have := min_wavelength_le_max_wavelength s
  unfold tableLen; omega

lemma new_absorptions_length (s : AbsorptionSpectrum) :
    (s.new_absorptions.length : ℤ) = tableLen s := by
  have := min_wavelength_le_max_wavelength s
  unfold AbsorptionSpectrum.new_absorptions
  rw [List.length_map, List.length_range]
  unfold tableLen
  omega

lemma pyGet_pos (l : List ℚ) (i : ℤ) (h0 : 0 ≤ i) (h1 : i < (l.length : ℤ)) :
    pyGet l i = some (l.getD i.toNat 0) := by
  have hneg : ¬ i < 0 := by omega
  unfold pyGet pyIdx
  simp only [if_neg hneg]
  rw [if_pos ⟨h0, h1⟩]

lemma pyGet_eq_none_iff (l : List ℚ) (i : ℤ) :
    pyGet l i = none ↔ ((l.length : ℤ) ≤ i ∨ i < -(l.length : ℤ)) := by
  unfold pyGet pyIdx
  split_ifs with h <;> simp_all <;> omega

lemma pyGet_wrap (l : List ℚ) (i : ℤ) (h0 : i < 0) (h1 : 0 ≤ i + (l.length : ℤ)) :
    pyGet l i = pyGet l (i + (l.length : ℤ)) := by
  have h2 : ¬ i + (l.length : ℤ) < 0 := by omega
  unfold pyGet pyIdx
  simp only [if_pos h0, if_neg h2]

lemma pyGet_map_range (f : ℕ → ℚ) (n : ℕ) (i : ℤ) (h0 : 0 ≤ i) (h1 : i < (n : ℤ)) :
    pyGet ((List.range n).map f) i = some (f i.toNat) := by
  have hlen : (((List.range n).map f).length : ℤ) = (n : ℤ) := by simp
  rw [pyGet_pos _ _ h0 (by omega)]
  congr 1
  rw [List.getD_eq_getElem?_getD, List.getElem?_map, List.getElem?_range (by omega)]
  rfl

lemma np_interp_constTwo (c x : ℚ) (h : x ≤ 1000) :
    np_interp x [(450, c), (1000, c)] = c := by
  rcases le_or_lt x 450 with h1 | h1
  · simp [np_interp, h1]
  · have h2 : ¬ x ≤ 450 := not_le.mpr h1
    simp [np_interp, h2, h]

/-- In-range lookups read the resampled table entry, which is the linear
interpolation of the raw sample points at the requested wavelength. -/
lemma get_absorption_in_range (s : AbsorptionSpectrum) (w : ℤ)
    (h0 : s.min_wavelength ≤ w) (h1 : w ≤ s.max_wavelength) :
    s.get_absorption_for_wavelength w = some (np_interp (w : ℚ) s.points) := by
  unfold AbsorptionSpectrum.get_absorption_for_wavelength
  unfold AbsorptionSpectrum.new_absorptions
  rw [pyGet_map_range _ _ (w - s.min_wavelength) (by omega) (by omega)]
  congr 1
  have hk : ((w - s.min_wavelength).toNat : ℤ) = w - s.min_wavelength :=
    Int.toNat_of_nonneg (by omega)
  have hq : (((w - s.min_wavelength).toNat : ℕ) : ℚ) =
      ((w : ℚ) - (s.min_wavelength : ℚ)) := by
    exact_mod_cast congrArg (fun z : ℤ => (z : ℚ)) hk
  rw [hq]
  ring_nf

/-- Claim C6: a spectrum built from the two points `([450, 1000], [c, c])`
returns exactly `c` from `get_absorption_for_wavelength` at every integer
wavelength in `[450, 1000]`. -/
theorem constant_spectrum_lookup (c : ℚ) (w : ℤ) (h1 : 450 ≤ w) (h2 : w ≤ 1000) :
    (constSpec c).get_absorption_for_wavelength w = some c := by
  have hmin : (constSpec c).min_wavelength = 450 := rfl
  have hmax : (constSpec c).max_wavelength = 1000 := rfl
  rw [get_absorption_in_range (constSpec c) w (by rw [hmin]; omega) (by rw [hmax]; omega)]
  congr 1
  apply np_interp_constTwo
  exact_mod_cast h2

/-- Witness for C6 at `c = 5`, `w = 700`. -/
theorem constant_spectrum_lookup_witness :
    (constSpec 5).get_absorption_for_wavelength 700 = some 5 :=
  constant_spectrum_lookup 5 700 (by norm_num) (by norm_num)

/-- Claim C9 (amended): a wavelength `w` with `min - L ≤ w < min` wraps
around: the call returns the resampled value belonging to wavelength
`w + L`, without error; and the lookup fails exactly when `w > max` or
`w < min - L`. -/
theorem negative_wavelength_wraparound (s : AbsorptionSpectrum) (w : ℤ) :
    (s.min_wavelength - tableLen s ≤ w → w < s.min_wavelength →
      s.get_absorption_for_wavelength w =
        s.get_absorption_for_wavelength (w + tableLen s) ∧
      s.get_absorption_for_wavelength w ≠ none) ∧
    (s.get_absorption_for_wavelength w = none ↔
      (s.max_wavelength < w ∨ w < s.min_wavelength - tableLen s)) := by
  have hlen := new_absorptions_length s
  have hmm := min_wavelength_le_max_wavelength s
  have hpos := tableLen_pos s
  have heq : tableLen s = s.max_wavelength - s.min_wavelength + 1 := rfl
  constructor
  · intro hlo hhi
    constructor
    · unfold AbsorptionSpectrum.get_absorption_for_wavelength
      have harg : w + tableLen s - s.min_wavelength =
          (w - s.min_wavelength) + (s.new_absorptions.length : ℤ) := by omega
      rw [harg]
      exact pyGet_wrap _ _ (by omega) (by omega)
    · unfold AbsorptionSpectrum.get_absorption_for_wavelength
      rw [Ne, pyGet_eq_none_iff]
      omega
  · unfold AbsorptionSpectrum.get_absorption_for_wavelength
    rw [pyGet_eq_none_iff]
    omega

/-- Witness for C9 at the constant spectrum, `w = 400` (so `m = 450`,
`M = 1000`, `L = 551`, and `w + L = 951`). -/
theorem negative_wavelength_wraparound_witness :
    (constSpec 7).get_absorption_for_wavelength 400 =
      (constSpec 7).get_absorption_for_wavelength 951 ∧
    (constSpec 7).get_absorption_for_wavelength 400 ≠ none := by
  have h := (negative_wavelength_wraparound (constSpec 7) 400).1 (by decide) (by decide)
  have hL : tableLen (constSpec 7) = 551 := by decide
  rw [hL] at h
  exact h

/-- Counterexample for C9 as stated: `w = -102` is not larger than the
maximum wavelength `1000`, yet the lookup on the `[450, 1000]` constant
spectrum fails (its index `-552` is below `-551`, the negative bound of
the 551-entry table). -/
theorem wavelength_failure_not_only_above_max :
    (constSpec 1).get_absorption_for_wavelength (-102) = none ∧
    ¬ ((1000 : ℤ) < -102) := by
  constructor
  · unfold AbsorptionSpectrum.get_absorption_for_wavelength
    rw [pyGet_eq_none_iff]
    have h1 : ((constSpec 1).new_absorptions.length : ℤ) = 551 := by
      rw [new_absorptions_length]; rfl
    have h2 : (constSpec 1).min_wavelength = 450 := rfl
    rw [h1, h2]
    norm_num
  · norm_num

/-- Library spectrum `CONSTANT_ABSORBER_ONE`. -/
def constantAbsorberOne : AbsorptionSpectrum :=
  ⟨"Constant Absorber (1)", [450, 1000], [1, 1]⟩

/-- Library spectrum `CONSTANT_ABSORBER_TEN`. -/
def constantAbsorberTen : AbsorptionSpectrum :=
  ⟨"Constant Absorber (10)", [450, 1000], [10, 10]⟩

/-! Molecule (molecule_library.py)

Python argument values are embedded as `PyVal`: a supplied argument is a
float, an int, a string or a spectrum object, and an unsupplied argument
is `none` (the default of every parameter of `Molecule.__init__`). -/

inductive PyVal where
  | none
  | pfloat (q : ℚ)
  | pint (n : ℤ)
  | pstr (s : String)
  | pspec (s : AbsorptionSpectrum)
deriving DecidableEq

/-- Python `isinstance(v, numbers.Number)`-style numericity: ints and
floats are numeric, strings and other objects are not. -/
def PyVal.isNumeric : PyVal → Bool
  | .pfloat _ => true
  | .pint _ => true
  | _ => false

/-- A value that passes `isinstance(v, float)` after the `None` default. -/
def PyVal.isFloatOrNone : PyVal → Bool
  | .none => true
  | .pfloat _ => true
  | _ => false

structure Molecule where
  spectrum : AbsorptionSpectrum
  volume_fraction : ℚ
  mus500 : ℚ
  f_ray : ℚ
  b_mie : ℚ
  anisotropy : ℚ
  gruneisen_parameter : ℚ
  density : ℚ
  speed_of_sound : ℚ
  alpha_coefficient : ℚ
deriving DecidableEq

/-- Library spectrum `CONSTANT_ABSORBER_ZERO`: two sample points
`([450, 1000], [1e-10, 1e-10])`. -/
def constantAbsorberZero : AbsorptionSpectrum :=
  ⟨"Constant Absorber (0)", [450, 1000], [1 / 10 ^ 10, 1 / 10 ^ 10]⟩

/-- One default-or-check step of `Molecule.__init__`: `None` becomes the
documented default, a float is kept, anything else raises `TypeError`. -/
def asFloat (v : PyVal) (dflt : ℚ) (fieldName : String) : Except String ℚ :=
  match v with
  | .none => .ok dflt
  | .pfloat q => .ok q
  | _ => .error ("The given " ++ fieldName ++ " was not of type float!")

def exIsOk {α : Type} : Except String α → Bool
  | .ok _ => true
  | .error _ => false

/-- Source constructor `Molecule.__init__`: defaults and `isinstance(·, float)` checks applied
field by field, in source order, first failure raising immediately. -/
def molecule_init (spectrum volume_fraction mus500 f_ray b_mie anisotropy
    gruneisen_parameter density speed_of_sound alpha_coefficient : PyVal) :
    Except String Molecule := do
  let spec ← (match spectrum with
    | .none => .ok constantAbsorberZero
    | .pspec s => .ok s
    | _ => .error ("The given spectrum was not of type AbsorptionSpectrum!"))
  let vf ← asFloat volume_fraction 0 ("volume_fraction")
  let m5 ← asFloat mus500 (1 / 10 ^ 20) ("mus500")
  let fr ← asFloat f_ray 0 ("f_ray")
  let bm ← asFloat b_mie 0 ("b_mie")
  let an ← asFloat anisotropy 0 ("anisotropy")
  let gr ← asFloat gruneisen_parameter 1 ("gruneisen_parameter")
  let de ← asFloat density 0 ("density")
  let sos ← asFloat speed_of_sound 0 ("speed_of_sound")
  let al ← asFloat alpha_coefficient 0 ("alpha_coefficient")
  return ⟨spec, vf, m5, fr, bm, an, gr, de, sos, al⟩

/-! TissueProperties and MolecularComposition (molecule_library.py)

`TissueProperties` lives in `simpa/utils/tissue_properties.py`, which is
not part of the sources under verification.

Modelled from the spec: TissueProperties is the per-structure property
record with one scalar per property field, zero-initialized on
construction ("State initialized to zero", aggregates "recomputed by
summing"), plus an initially-unset segmentation tag.  The oxygenation
field (computed by `calculate_oxygenation`, also outside the sources and
outside every claim) is not modelled. -/

structure TissueProperties where
  volume_fraction : ℚ
  absorption_per_cm : ℚ
  scattering_per_cm : ℚ
  anisotropy : ℚ
  gruneisen_parameter : ℚ
  density : ℚ
  speed_of_sound : ℚ
  alpha_coefficient : ℚ
  segmentation : Option String
deriving DecidableEq

def tpZero : TissueProperties := ⟨0, 0, 0, 0, 0, 0, 0, 0, Option.none⟩

/-- Source class `MolecularComposition`: the molecule list, the segmentation tag, the
single mutable aggregate record, and the two 5000-slot `-1`-initialized
caches (numpy arrays, embedded as integer-indexed functions whose
reads/writes go through Python index normalization). -/
structure MolecularComposition where
  molecules : List Molecule
  segmentation_type : Option String
  internal_properties : TissueProperties
  cached_absorption : ℤ → ℚ
  cached_scattering : ℤ → ℚ

/-- Source constructor `MolecularComposition.__init__`. -/
def mkMolecularComposition (seg : Option String) (ms : List Molecule) :
    MolecularComposition :=
  ⟨ms, seg, tpZero, fun _ => -1, fun _ => -1⟩

/-- One iteration of the accumulation loop of `update_internal_properties`. -/
def accumulateMolecule (tp : TissueProperties) (m : Molecule) : TissueProperties :=
  { tp with
    volume_fraction := tp.volume_fraction + m.volume_fraction,
    anisotropy := tp.anisotropy + m.volume_fraction * m.anisotropy,
    gruneisen_parameter := tp.gruneisen_parameter + m.volume_fraction * m.gruneisen_parameter,
    density := tp.density + m.volume_fraction * m.density,
    speed_of_sound := tp.speed_of_sound + m.volume_fraction * m.speed_of_sound,
    alpha_coefficient := tp.alpha_coefficient + m.volume_fraction * m.alpha_coefficient }

/-- The final step of `update_internal_properties`: when the summed
volume fraction exceeds 1, only the anisotropy aggregate is divided by
it; every other aggregate is left as summed. -/
def renormalizeAnisotropy (tp : TissueProperties) : TissueProperties :=
  if 1 < tp.volume_fraction then
    { tp with anisotropy := tp.anisotropy / tp.volume_fraction }
  else tp

/-- Source method `MolecularComposition.update_internal_properties`: fresh zero record,
accumulate every molecule, then renormalize only the anisotropy aggregate
when the summed volume fraction exceeds 1. -/
def update_internal_properties (mc : MolecularComposition) : MolecularComposition :=
  { mc with internal_properties :=
      renormalizeAnisotropy (mc.molecules.foldl accumulateMolecule
        { tpZero with segmentation := mc.segmentation_type }) }

/-- The absorption sum of the uncached branch of
`get_properties_for_wavelength`; each spectrum lookup can raise. -/
def absorptionSum (w : ℤ) : List Molecule → Option ℚ
  | [] => some 0
  | m :: ms => do
      let a ← m.spectrum.get_absorption_for_wavelength w
      let rest ← absorptionSum w ms
      some (m.volume_fraction * a + rest)

/-- One molecule's scattering contribution.  Python's float `**` with the
non-integer exponents `1e-4` and `-b_mie` is not rational arithmetic, so
the power operation is a parameter `pw` of the embedding; no claim here
depends on its values. -/
def scatteringTerm (pw : ℚ → ℚ → ℚ) (w : ℤ) (m : Molecule) : ℚ :=
  m.volume_fraction * (m.mus500 * (m.f_ray * pw ((w : ℚ) / 500) (1 / 10000) +
    (1 - m.f_ray) * pw ((w : ℚ) / 500) (-m.b_mie)))

def scatteringSum (pw : ℚ → ℚ → ℚ) (w : ℤ) (ms : List Molecule) : ℚ :=
  (ms.map (scatteringTerm pw w)).sum

/-- The `internal_properties` record after a cache hit at slot `j`: both
scalars are read back from the cache slot populated earlier. -/
def cacheHitProps (mc : MolecularComposition) (j : ℤ) : TissueProperties :=
  { mc.internal_properties with
    absorption_per_cm := mc.cached_absorption j,
    scattering_per_cm := mc.cached_scattering j }

/-- The `internal_properties` record after the uncached branch computed
absorption `a` and the scattering sum. -/
def recomputeProps (pw : ℚ → ℚ → ℚ) (mc : MolecularComposition) (w : ℤ) (a : ℚ) :
    TissueProperties :=
  { mc.internal_properties with
    absorption_per_cm := a,
    scattering_per_cm := scatteringSum pw w mc.molecules }

/-- The whole composition after the uncached branch: updated record and
both scalars written into cache slot `j`. -/
def recomputeMC (pw : ℚ → ℚ → ℚ) (mc : MolecularComposition) (w : ℤ) (a : ℚ) (j : ℤ) :
    MolecularComposition :=
  { mc with
    internal_properties := recomputeProps pw mc w a,
    cached_absorption := fun i => if i = j then a else mc.cached_absorption i,
    cached_scattering :=
      fun i => if i = j then scatteringSum pw w mc.molecules else mc.cached_scattering i }

/-- Source method `MolecularComposition.get_properties_for_wavelength`: cache hit iff
the absorption slot differs from the `-1` sentinel; on a miss the sums
are recomputed and written back.  Returns the updated composition, the
returned record (the composition's own `internal_properties`) and a flag
telling whether the else-branch (the recomputation) ran — the
"instrumentation counter" of the spec.  `Option.none` models an
IndexError on the 5000-slot cache or a failing spectrum lookup. -/
def get_properties_for_wavelength (pw : ℚ → ℚ → ℚ) (mc : MolecularComposition)
    (wavelength : ℤ) : Option (MolecularComposition × TissueProperties × Bool) :=
  if 0 ≤ pyIdx 5000 wavelength ∧ pyIdx 5000 wavelength < 5000 then
    if mc.cached_absorption (pyIdx 5000 wavelength) ≠ -1 then
      some ({ mc with internal_properties := cacheHitProps mc (pyIdx 5000 wavelength) },
        cacheHitProps mc (pyIdx 5000 wavelength), false)
    else
      match absorptionSum wavelength mc.molecules with
      | Option.none => Option.none
      | some a =>
          some (recomputeMC pw mc wavelength a (pyIdx 5000 wavelength),
            recomputeProps pw mc wavelength a, true)
  else Option.none

/-- Claim C7 evaluated at the failing input: `__eq__` on two library
spectra with different names and different values returns the 3-tuple of
componentwise comparisons, which as a Python truth value is `True`
(a nonempty tuple), although the spectra differ. -/
theorem spectrum_eq_returns_truthy_tuple :
    spectrum_eq constantAbsorberOne constantAbsorberTen =
      (false, [true, true], [false, false]) ∧
    py_bool_of_triple (spectrum_eq constantAbsorberOne constantAbsorberTen) = true ∧
    constantAbsorberOne ≠ constantAbsorberTen := by
  refine ⟨by decide, rfl, by decide⟩

lemma foldl_accumulate (ms : List Molecule) (tp : TissueProperties) :
    ms.foldl accumulateMolecule tp = { tp with
      volume_fraction := tp.volume_fraction + (ms.map (fun m => m.volume_fraction)).sum,
      anisotropy :=
        tp.anisotropy + (ms.map (fun m => m.volume_fraction * m.anisotropy)).sum,
      gruneisen_parameter := tp.gruneisen_parameter +
        (ms.map (fun m => m.volume_fraction * m.gruneisen_parameter)).sum,
      density := tp.density + (ms.map (fun m => m.volume_fraction * m.density)).sum,
      speed_of_sound := tp.speed_of_sound +
        (ms.map (fun m => m.volume_fraction * m.speed_of_sound)).sum,
      alpha_coefficient := tp.alpha_coefficient +
        (ms.map (fun m => m.volume_fraction * m.alpha_coefficient)).sum } := by
  induction ms generalizing tp with
  | nil => simp
  | cons m ms ih =>
      rw [List.foldl_cons, ih]
      cases tp
      simp only [accumulateMolecule, List.map_cons, List.sum_cons, TissueProperties.mk.injEq]
      refine ⟨by ring, trivial, trivial, by ring, by ring, by ring, by ring, by ring, trivial⟩

/-- Claim C4: `update_internal_properties` computes every aggregate as
the sum of `volume_fraction × property` over the member molecules, sums
the volume fractions, and divides only the anisotropy aggregate by the
summed fraction when that fraction exceeds 1. -/
theorem update_only_anisotropy_renormalized (mc : MolecularComposition) :
    (update_internal_properties mc).internal_properties.volume_fraction =
      (mc.molecules.map (fun m => m.volume_fraction)).sum ∧
    (update_internal_properties mc).internal_properties.gruneisen_parameter =
      (mc.molecules.map (fun m => m.volume_fraction * m.gruneisen_parameter)).sum ∧
    (update_internal_properties mc).internal_properties.density =
      (mc.molecules.map (fun m => m.volume_fraction * m.density)).sum ∧
    (update_internal_properties mc).internal_properties.speed_of_sound =
      (mc.molecules.map (fun m => m.volume_fraction * m.speed_of_sound)).sum ∧
    (update_internal_properties mc).internal_properties.alpha_coefficient =
      (mc.molecules.map (fun m => m.volume_fraction * m.alpha_coefficient)).sum ∧
    (update_internal_properties mc).internal_properties.anisotropy =
      (if 1 < (mc.molecules.map (fun m => m.volume_fraction)).sum then
        (mc.molecules.map (fun m => m.volume_fraction * m.anisotropy)).sum /
          (mc.molecules.map (fun m => m.volume_fraction)).sum
      else (mc.molecules.map (fun m => m.volume_fraction * m.anisotropy)).sum) := by
  unfold update_internal_properties
  rw [foldl_accumulate]
  unfold renormalizeAnisotropy tpZero
  split_ifs with h <;> simp_all

/-- Claim C8 counterexample: the integer `1` is numeric, yet supplying it
for `volume_fraction` makes `Molecule.__init__` raise the float
`TypeError` — construction does not succeed on every all-numeric call. -/
theorem molecule_init_rejects_numeric_int :
    molecule_init PyVal.none (PyVal.pint 1) PyVal.none PyVal.none PyVal.none PyVal.none
      PyVal.none PyVal.none PyVal.none PyVal.none =
      .error ("The given volume_fraction was not of type float!") ∧
    (PyVal.pint 1).isNumeric = true :=
  ⟨rfl, rfl⟩

/-- Claim C8 (amended): with no field supplied, construction succeeds with
the documented default constants; and (for any combination of supplied
values) construction succeeds exactly when every supplied field is a
float — unset fields are defaulted, every non-float (including numeric
ints) raises a `TypeError`. -/
theorem molecule_init_float_validation :
    (molecule_init PyVal.none PyVal.none PyVal.none PyVal.none PyVal.none PyVal.none
        PyVal.none PyVal.none PyVal.none PyVal.none =
      .ok ⟨constantAbsorberZero, 0, 1 / 10 ^ 20, 0, 0, 0, 1, 0, 0, 0⟩) ∧
    ∀ v1 v2 v3 v4 v5 v6 v7 v8 v9 : PyVal,
      exIsOk (molecule_init PyVal.none v1 v2 v3 v4 v5 v6 v7 v8 v9) =
        (v1.isFloatOrNone && v2.isFloatOrNone && v3.isFloatOrNone && v4.isFloatOrNone &&
         v5.isFloatOrNone && v6.isFloatOrNone && v7.isFloatOrNone && v8.isFloatOrNone &&
         v9.isFloatOrNone) := by
  refine ⟨rfl, ?_⟩
  intro v1 v2 v3 v4 v5 v6 v7 v8 v9
  cases v1 <;> first
  | rfl
  | (cases v2 <;> first
    | rfl
    | (cases v3 <;> first
      | rfl
      | (cases v4 <;> first
        | rfl
        | (cases v5 <;> first
          | rfl
          | (cases v6 <;> first
            | rfl
            | (cases v7 <;> first
              | rfl
              | (cases v8 <;> first
                | rfl
                | (cases v9 <;> rfl))))))))

lemma getProps_hit (pw : ℚ → ℚ → ℚ) (mc : MolecularComposition) (w : ℤ)
    (hb : 0 ≤ pyIdx 5000 w ∧ pyIdx 5000 w < 5000)
    (hc : mc.cached_absorption (pyIdx 5000 w) ≠ -1) :
    get_properties_for_wavelength pw mc w =
      some ({ mc with internal_properties := cacheHitProps mc (pyIdx 5000 w) },
        cacheHitProps mc (pyIdx 5000 w), false) := by
  unfold get_properties_for_wavelength
  rw [if_pos hb, if_pos hc]

lemma getProps_miss (pw : ℚ → ℚ → ℚ) (mc : MolecularComposition) (w : ℤ) (a : ℚ)
    (hb : 0 ≤ pyIdx 5000 w ∧ pyIdx 5000 w < 5000)
    (hc : ¬ mc.cached_absorption (pyIdx 5000 w) ≠ -1)
    (ha : absorptionSum w mc.molecules = some a) :
    get_properties_for_wavelength pw mc w =
      some (recomputeMC pw mc w a (pyIdx 5000 w), recomputeProps pw mc w a, true) := by
  unfold get_properties_for_wavelength
  rw [if_pos hb, if_neg hc, ha]

lemma getProps_miss_none (pw : ℚ → ℚ → ℚ) (mc : MolecularComposition) (w : ℤ)
    (hb : 0 ≤ pyIdx 5000 w ∧ pyIdx 5000 w < 5000)
    (hc : ¬ mc.cached_absorption (pyIdx 5000 w) ≠ -1)
    (ha : absorptionSum w mc.molecules = Option.none) :
    get_properties_for_wavelength pw mc w = Option.none := by
  unfold get_properties_for_wavelength
  rw [if_pos hb, if_neg hc, ha]

lemma getProps_out_of_range (pw : ℚ → ℚ → ℚ) (mc : MolecularComposition) (w : ℤ)
    (hb : ¬ (0 ≤ pyIdx 5000 w ∧ pyIdx 5000 w < 5000)) :
    get_properties_for_wavelength pw mc w = Option.none := by
  unfold get_properties_for_wavelength
  rw [if_neg hb]

/-- Every successful call returns exactly the composition's own (updated)
`internal_properties` record — the Python return value is a reference to
that single mutable record. -/
lemma getProps_internal_eq (pw : ℚ → ℚ → ℚ) (mc : MolecularComposition) (w : ℤ)
    (mc' : MolecularComposition) (tp : TissueProperties) (r : Bool)
    (h : get_properties_for_wavelength pw mc w = some (mc', tp, r)) :
    mc'.internal_properties = tp := by
  by_cases hb : 0 ≤ pyIdx 5000 w ∧ pyIdx 5000 w < 5000
  · by_cases hc : mc.cached_absorption (pyIdx 5000 w) ≠ -1
    · rw [getProps_hit pw mc w hb hc] at h
      simp only [Option.some.injEq, Prod.mk.injEq] at h
      obtain ⟨hmc, htp, _⟩ := h
      rw [← hmc, ← htp]
    · cases ha : absorptionSum w mc.molecules with
      | none => rw [getProps_miss_none pw mc w hb hc ha] at h; simp at h
      | some a =>
          rw [getProps_miss pw mc w a hb hc ha] at h
          simp only [Option.some.injEq, Prod.mk.injEq] at h
          obtain ⟨hmc, htp, _⟩ := h
          rw [← hmc, ← htp]
          rfl
  · rw [getProps_out_of_range pw mc w hb] at h
    simp at h

/-- Claim C5 (amended): after a successful call at wavelength `w`, a
second call at `w` succeeds and returns identical absorption and
scattering values, and — provided the first call's absorption does not
collide with the `-1` unset sentinel — the second call reads from the
cache instead of recomputing. -/
theorem cached_wavelength_memoization (pw : ℚ → ℚ → ℚ)
    (mc mc1 : MolecularComposition) (w : ℤ) (tp1 : TissueProperties) (r1 : Bool)
    (h1 : get_properties_for_wavelength pw mc w = some (mc1, tp1, r1)) :
    ∃ mc2 tp2 r2,
      get_properties_for_wavelength pw mc1 w = some (mc2, tp2, r2) ∧
      tp2.absorption_per_cm = tp1.absorption_per_cm ∧
      tp2.scattering_per_cm = tp1.scattering_per_cm ∧
      (tp1.absorption_per_cm ≠ -1 → r2 = false) := by
  by_cases hb : 0 ≤ pyIdx 5000 w ∧ pyIdx 5000 w < 5000
  · by_cases hc : mc.cached_absorption (pyIdx 5000 w) ≠ -1
    · rw [getProps_hit pw mc w hb hc] at h1
      simp only [Option.some.injEq, Prod.mk.injEq] at h1
      obtain ⟨hmc, htp, _⟩ := h1
      subst hmc; subst htp
      have hc1 : ({ mc with internal_properties := cacheHitProps mc (pyIdx 5000 w) }
          : MolecularComposition).cached_absorption (pyIdx 5000 w) ≠ -1 := hc
      refine ⟨_, _, _, getProps_hit pw _ w hb hc1, rfl, rfl, fun _ => rfl⟩
    · cases ha : absorptionSum w mc.molecules with
      | none => rw [getProps_miss_none pw mc w hb hc ha] at h1; simp at h1
      | some a =>
          rw [getProps_miss pw mc w a hb hc ha] at h1
          simp only [Option.some.injEq, Prod.mk.injEq] at h1
          obtain ⟨hmc, htp, _⟩ := h1
          subst hmc; subst htp
          have hval : (recomputeMC pw mc w a (pyIdx 5000 w)).cached_absorption
              (pyIdx 5000 w) = a := by
            simp [recomputeMC]
          by_cases hA : a = -1
          · have hc2 : ¬ (recomputeMC pw mc w a (pyIdx 5000 w)).cached_absorption
                (pyIdx 5000 w) ≠ -1 := by
              rw [hval, hA]; simp
            have ha2 : absorptionSum w (recomputeMC pw mc w a (pyIdx 5000 w)).molecules =
                some a := ha
            refine ⟨_, _, _, getProps_miss pw _ w a hb hc2 ha2, rfl, rfl, ?_⟩
            intro hcontra
            exact absurd hA hcontra
          · have hc2 : (recomputeMC pw mc w a (pyIdx 5000 w)).cached_absorption
                (pyIdx 5000 w) ≠ -1 := by
              rw [hval]; exact hA
            refine ⟨_, _, _, getProps_hit pw _ w hb hc2, ?_, ?_, fun _ => rfl⟩
            · simp [cacheHitProps, recomputeMC, recomputeProps]
            · simp [cacheHitProps, recomputeMC, recomputeProps]
  · rw [getProps_out_of_range pw mc w hb] at h1
    simp at h1

/-- Claim C10: a successful call hands back the composition's single
`internal_properties` record itself, so after a second call at another
wavelength with a different cached absorption, the record obtained from
the first call reports the second wavelength's values. -/
theorem properties_record_aliasing (pw : ℚ → ℚ → ℚ)
    (mc mc1 mc2 : MolecularComposition) (w1 w2 : ℤ)
    (tp1 tp2 : TissueProperties) (r1 r2 : Bool)
    (h1 : get_properties_for_wavelength pw mc w1 = some (mc1, tp1, r1))
    (h2 : get_properties_for_wavelength pw mc1 w2 = some (mc2, tp2, r2)) :
    mc1.internal_properties = tp1 ∧ mc2.internal_properties = tp2 ∧
      (tp1.absorption_per_cm ≠ tp2.absorption_per_cm →
        mc2.internal_properties.absorption_per_cm ≠ tp1.absorption_per_cm) := by
  have e1 := getProps_internal_eq pw mc w1 mc1 tp1 r1 h1
  have e2 := getProps_internal_eq pw mc1 w2 mc2 tp2 r2 h2
  refine ⟨e1, e2, ?_⟩
  intro hne
  rw [e2]
  intro hcontra
  exact hne hcontra.symm

/-! Concrete compositions for the memoization and aliasing claims -/

/-- A fixed concrete model of Python's float `**` used to evaluate the
embedding at concrete inputs; the claims settled below hold for every
`pw`, so any instantiation may serve for evaluation. -/
def pwOne : ℚ → ℚ → ℚ := fun _ _ => 1

/-- A molecule of the constant-1 absorber with volume fraction 1.0. -/
def mGood : Molecule := ⟨constantAbsorberOne, 1, 0, 0, 0, 0, 1, 0, 0, 0⟩

def mcGood : MolecularComposition := mkMolecularComposition (some ("Good")) [mGood]

def mcGood1 : MolecularComposition :=
  match get_properties_for_wavelength pwOne mcGood 500 with
  | some (m, _, _) => m
  | Option.none => mcGood

def tpGood1 : TissueProperties :=
  match get_properties_for_wavelength pwOne mcGood 500 with
  | some (_, t, _) => t
  | Option.none => tpZero

set_option maxRecDepth 40000 in
/-- Witness for C5 at the constant-1 composition and `w = 500`. -/
theorem cached_wavelength_memoization_witness :
    ∃ mc2 tp2 r2,
      get_properties_for_wavelength pwOne mcGood1 500 = some (mc2, tp2, r2) ∧
      tp2.absorption_per_cm = tpGood1.absorption_per_cm ∧
      tp2.scattering_per_cm = tpGood1.scattering_per_cm ∧
      (tpGood1.absorption_per_cm ≠ -1 → r2 = false) :=
  cached_wavelength_memoization pwOne mcGood mcGood1 500 tpGood1 true rfl

/-- A molecule with volume fraction `-1.0` (the `[0, 1]` bound is a soft
bound, not enforced at construction) whose absorption sum is exactly the
`-1` cache sentinel. -/
def mBad : Molecule := ⟨constantAbsorberOne, -1, 0, 0, 0, 0, 1, 0, 0, 0⟩

def mcBad : MolecularComposition := mkMolecularComposition Option.none [mBad]

def mcBad1 : MolecularComposition :=
  match get_properties_for_wavelength pwOne mcBad 500 with
  | some (m, _, _) => m
  | Option.none => mcBad

lemma constAbsOne_500 : constantAbsorberOne.get_absorption_for_wavelength 500 = some 1 := by
  rw [get_absorption_in_range _ _ (by decide) (by decide)]
  congr 1
  have hp : constantAbsorberOne.points = [(450, 1), (1000, 1)] := rfl
  rw [hp]
  exact np_interp_constTwo 1 _ (by norm_num)

lemma absSum_bad : absorptionSum 500 [mBad] = some (-1) := by
  simp [absorptionSum, mBad, constAbsOne_500]

lemma hcallBad1 : get_properties_for_wavelength pwOne mcBad 500 =
    some (recomputeMC pwOne mcBad 500 (-1) (pyIdx 5000 500),
      recomputeProps pwOne mcBad 500 (-1), true) :=
  getProps_miss pwOne mcBad 500 (-1) (by decide)
    (by simp [mcBad, mkMolecularComposition]) absSum_bad

lemma hmcBad1 : mcBad1 = recomputeMC pwOne mcBad 500 (-1) (pyIdx 5000 500) := by
  unfold mcBad1
  rw [hcallBad1]

lemma hcallBad2 : get_properties_for_wavelength pwOne mcBad1 500 =
    some (recomputeMC pwOne mcBad1 500 (-1) (pyIdx 5000 500),
      recomputeProps pwOne mcBad1 500 (-1), true) := by
  apply getProps_miss
  · decide
  · rw [hmcBad1]
    simp [recomputeMC]
  · rw [hmcBad1]
    exact absSum_bad

/-- Claim C5 counterexample: this composition computes absorption exactly
`-1` at `w = 500`, which collides with the unset sentinel, so the second
call runs the recomputation branch again (flag `true`) instead of
reading the cache. -/
theorem sentinel_collision_forces_recompute :
    (get_properties_for_wavelength pwOne mcBad 500).map
      (fun res => res.2.1.absorption_per_cm) = some (-1) ∧
    (get_properties_for_wavelength pwOne mcBad 500).map (fun res => res.2.2) = some true ∧
    (get_properties_for_wavelength pwOne mcBad1 500).map (fun res => res.2.2) = some true := by
  refine ⟨?_, ?_, ?_⟩
  · rw [hcallBad1]; rfl
  · rw [hcallBad1]; rfl
  · rw [hcallBad2]; rfl

/-- A spectrum whose resampled values differ between 500 nm and 600 nm. -/
def slopeSpec : AbsorptionSpectrum := ⟨"Linear Absorber", [450, 1000], [1, 2]⟩

def mSlope : Molecule := ⟨slopeSpec, 1, 0, 0, 0, 0, 1, 0, 0, 0⟩

def mcSlope : MolecularComposition := mkMolecularComposition (some ("Slope")) [mSlope]

def mcSlope1 : MolecularComposition :=
  match get_properties_for_wavelength pwOne mcSlope 500 with
  | some (m, _, _) => m
  | Option.none => mcSlope

def tpSlope1 : TissueProperties :=
  match get_properties_for_wavelength pwOne mcSlope 500 with
  | some (_, t, _) => t
  | Option.none => tpZero

def mcSlope2 : MolecularComposition :=
  match get_properties_for_wavelength pwOne mcSlope1 600 with
  | some (m, _, _) => m
  | Option.none => mcSlope1

def tpSlope2 : TissueProperties :=
  match get_properties_for_wavelength pwOne mcSlope1 600 with
  | some (_, t, _) => t
  | Option.none => tpZero

lemma slope_500 : slopeSpec.get_absorption_for_wavelength 500 = some (12 / 11) := by
  rw [get_absorption_in_range _ _ (by decide) (by decide)]
  congr 1
  have hp : slopeSpec.points = [(450, 1), (1000, 2)] := rfl
  rw [hp]
  norm_num [np_interp]

lemma slope_600 : slopeSpec.get_absorption_for_wavelength 600 = some (14 / 11) := by
  rw [get_absorption_in_range _ _ (by decide) (by decide)]
  congr 1
  have hp : slopeSpec.points = [(450, 1), (1000, 2)] := rfl
  rw [hp]
  norm_num [np_interp]

lemma absSum_slope_500 : absorptionSum 500 [mSlope] = some (12 / 11) := by
  simp [absorptionSum, mSlope, slope_500]

lemma absSum_slope_600 : absorptionSum 600 [mSlope] = some (14 / 11) := by
  simp [absorptionSum, mSlope, slope_600]

lemma hcallS1 : get_properties_for_wavelength pwOne mcSlope 500 =
    some (recomputeMC pwOne mcSlope 500 (12 / 11) (pyIdx 5000 500),
      recomputeProps pwOne mcSlope 500 (12 / 11), true) :=
  getProps_miss pwOne mcSlope 500 (12 / 11) (by decide)
    (by simp [mcSlope, mkMolecularComposition]) absSum_slope_500

lemma hmcS1 : mcSlope1 = recomputeMC pwOne mcSlope 500 (12 / 11) (pyIdx 5000 500) := by
  unfold mcSlope1
  rw [hcallS1]

lemma htpS1 : tpSlope1 = recomputeProps pwOne mcSlope 500 (12 / 11) := by
  unfold tpSlope1
  rw [hcallS1]

lemma hcallS2 : get_properties_for_wavelength pwOne mcSlope1 600 =
    some (recomputeMC pwOne mcSlope1 600 (14 / 11) (pyIdx 5000 600),
      recomputeProps pwOne mcSlope1 600 (14 / 11), true) := by
  apply getProps_miss
  · decide
  · rw [hmcS1]
    norm_num [recomputeMC, pyIdx, mcSlope, mkMolecularComposition]
  · rw [hmcS1]
    exact absSum_slope_600

lemma hmcS2 : mcSlope2 = recomputeMC pwOne mcSlope1 600 (14 / 11) (pyIdx 5000 600) := by
  unfold mcSlope2
  rw [hcallS2]

lemma htpS2 : tpSlope2 = recomputeProps pwOne mcSlope1 600 (14 / 11) := by
  unfold tpSlope2
  rw [hcallS2]

/-- Witness for C10: calls at 500 nm then 600 nm on a sloped spectrum;
the two cached absorption values (`12/11` and `14/11`) differ. -/
theorem properties_record_aliasing_witness :
    (mcSlope1.internal_properties = tpSlope1 ∧ mcSlope2.internal_properties = tpSlope2 ∧
      (tpSlope1.absorption_per_cm ≠ tpSlope2.absorption_per_cm →
        mcSlope2.internal_properties.absorption_per_cm ≠ tpSlope1.absorption_per_cm)) ∧
    tpSlope1.absorption_per_cm = 12 / 11 ∧ tpSlope2.absorption_per_cm = 14 / 11 :=
  ⟨properties_record_aliasing pwOne mcSlope mcSlope1 mcSlope2 500 600 tpSlope1 tpSlope2
      true true (hcallS1.trans (by rw [hmcS1, htpS1])) (hcallS2.trans (by rw [hmcS2, htpS2])),
    by rw [htpS1]; rfl, by rw [htpS2]; rfl⟩

/-! The compositor pass
    (volume_creation_module_model_based_adapter.py)

Every tensor operation of `create_simulation_volume`'s loop is
elementwise over voxels and the audit slice copies per-voxel values, so
the pass is embedded per voxel: a `StructIn` is one structure's data at
one voxel, a `VoxelState` the compositor state at that voxel.

Note on line 95 of the source: by Python precedence
`added_volume_fraction <= 1 & mask` parses as
`added_volume_fraction <= (1 & mask)`, i.e. the naive sum is compared
with 1 at masked voxels and with 0 elsewhere; that is embedded exactly
as written. -/

def isPre : List Char → List Char → Bool
  | [], _ => true
  | _ :: _, [] => false
  | a :: as, b :: bs => a == b && isPre as bs

def hasSub (needle : List Char) : List Char → Bool
  | [] => needle.isEmpty
  | c :: rest => isPre needle (c :: rest) || hasSub needle rest

/-- Python's `needle in hay` substring test. -/
def strContains (hay needle : String) : Bool :=
  hasSub needle.toList hay.toList

/-- The vessel-tag override (lines 76–86): the `try` around
`structure.params[5]` tolerates a missing tag (modelled as
`Option.none`) and leaves the composition's own segmentation; otherwise
the `'artery' in …` / `'vein' in …` chain overrides it. -/
def resolveSeg (tag : Option String) (d : Option String) : Option String :=
  match tag with
  | Option.none => d
  | some t =>
      if strContains t ("artery") && !strContains t ("random") then some ("ARTERY")
      else if strContains t ("vein") && !strContains t ("random") then some ("VEIN")
      else if strContains t ("random_artery") then some ("RANDOM_ARTERY")
      else if strContains t ("random_vein") then some ("RANDOM_VEIN")
      else d

/-- The non-label property fields of the output volumes. -/
inductive PropKey where
  | absorption
  | scattering
  | anisotropy
  | gruneisen
  | density
  | speed_of_sound
  | alpha
deriving DecidableEq

/-- One structure at one voxel: priority, occupancy
(`geometrical_volume` value), the optional vessel tag (`params[5]`), the
segmentation label of its wavelength-resolved properties, and the
non-label property values (`Option.none` for a property the structure
does not set, skipped by the accumulation loop). -/
structure StructIn where
  priority : ℤ
  occ : ℚ
  vesselTag : Option String
  segLabel : Option String
  props : PropKey → Option ℚ

/-- The compositor state at one voxel: `global_volume_fractions`,
`max_added_fractions`, the segmentation label written so far, and the
accumulated non-label volumes. -/
structure VoxelState where
  global_volume_fractions : ℚ
  max_added_fractions : ℚ
  seg : Option String
  volumes : PropKey → ℚ

def initVoxelState : VoxelState := ⟨0, 0, Option.none, fun _ => 0⟩

/-- Lines 93–96: start from the naive sum `global + occ`; where the sum
is `≤ (1 & mask)` — 1 at masked voxels, 0 elsewhere — overwrite with the
structure's own occupancy. -/
def addedPreClip (g occ : ℚ) : ℚ :=
  if g + occ ≤ (if 0 < occ ∧ g < 1 then (1 : ℚ) else 0) then occ else g + occ

/-- Lines 98–103: entries still exceeding 1 are clipped to
`min (1 - global, occ)`.  This is the per-structure added fraction, and
exactly the value copied into the audit slice (line 105). -/
def addedOf (g occ : ℚ) : ℚ :=
  if 1 < addedPreClip g occ then min (1 - g) occ else addedPreClip g occ

/-- Lines 108–119, one structure's update of the voxel state: the
segmentation label and `max_added_fractions` change only where the added
fraction strictly exceeds the running maximum (and the voxel is masked),
non-label volumes accumulate `added × property` at masked voxels, and
the global fraction grows by the added fraction at masked voxels. -/
def stepVoxel (st : VoxelState) (s : StructIn) : VoxelState :=
  { global_volume_fractions :=
      if 0 < s.occ ∧ st.global_volume_fractions < 1 then
        st.global_volume_fractions + addedOf st.global_volume_fractions s.occ
      else st.global_volume_fractions,
    max_added_fractions :=
      match resolveSeg s.vesselTag s.segLabel with
      | Option.none => st.max_added_fractions
      | some _ =>
          if st.max_added_fractions < addedOf st.global_volume_fractions s.occ ∧
              (0 < s.occ ∧ st.global_volume_fractions < 1) then
            addedOf st.global_volume_fractions s.occ
          else st.max_added_fractions,
    seg :=
      match resolveSeg s.vesselTag s.segLabel with
      | Option.none => st.seg
      | some lab =>
          if st.max_added_fractions < addedOf st.global_volume_fractions s.occ ∧
              (0 < s.occ ∧ st.global_volume_fractions < 1) then some lab
          else st.seg,
    volumes := fun k =>
      match s.props k with
      | Option.none => st.volumes k
      | some p =>
          if 0 < s.occ ∧ st.global_volume_fractions < 1 then
            st.volumes k + addedOf st.global_volume_fractions s.occ * p
          else st.volumes k }

def insertByPriority (s : StructIn) : List StructIn → List StructIn
  | [] => [s]
  | t :: ts => if t.priority < s.priority then t :: insertByPriority s ts else s :: t :: ts

/-- Modelled from the spec: `priority_sorted_structures` lives in
`simpa/utils/libraries/structure_library.py`, which is not among the
sources under verification; the spec requires the structures sorted
ascending by priority, processed lower priority first, with a
deterministic stable tie-break on insertion order.  Stable insertion
sort on the priority key. -/
def priority_sorted_structures (l : List StructIn) : List StructIn :=
  l.foldr insertByPriority []

/-- The compositor pass at one voxel: fold the priority-sorted structures
through `stepVoxel`, recording each structure's added fraction — the
audit value stored into `structures_filling` (line 105). -/
def create_simulation_volume (structs : List StructIn) : VoxelState × List ℚ :=
  (priority_sorted_structures structs).foldl
    (fun acc s =>
      (stepVoxel acc.1 s, acc.2 ++ [addedOf acc.1.global_volume_fractions s.occ]))
    (initVoxelState, [])

/-- Structure A of the C1 scenario: priority 1, occupancy 0.6, label "A". -/
def structA : StructIn := ⟨1, 3 / 5, Option.none, some ("A"), fun _ => Option.none⟩

/-- Structure B of the C1 scenario: priority 2, occupancy 0.6, label "B". -/
def structB : StructIn := ⟨2, 3 / 5, Option.none, some ("B"), fun _ => Option.none⟩

/-- Claim C1: in the two-structure overlap scenario, the pass (sorted so
that A runs first despite being listed second) computes
`added_A = 0.6`, `added_B = min(1 - 0.6, 0.6) = 0.4`, and the final
segmentation label is "A" because `0.6 > 0.4`, although B has the higher
priority. -/
theorem compositor_label_by_running_maximum :
    (create_simulation_volume [structB, structA]).2 = [3 / 5, 2 / 5] ∧
    (create_simulation_volume [structB, structA]).1.seg = some ("A") ∧
    structA.priority < structB.priority := by
  refine ⟨?_, ?_, by norm_num [structA, structB]⟩ <;>
    norm_num [create_simulation_volume, priority_sorted_structures, insertByPriority,
      structA, structB, stepVoxel, addedOf, addedPreClip, initVoxelState, resolveSeg]

lemma stepVoxel_global_bounds (st : VoxelState) (s : StructIn)
    (hocc : 0 ≤ s.occ) (h0 : 0 ≤ st.global_volume_fractions)
    (h1 : st.global_volume_fractions ≤ 1) :
    0 ≤ (stepVoxel st s).global_volume_fractions ∧
      (stepVoxel st s).global_volume_fractions ≤ 1 := by
  obtain ⟨g, mx, sg, vols⟩ := st
  obtain ⟨p, occ, vt, sl, pr⟩ := s
  simp only at hocc h0 h1
  simp only [stepVoxel]
  unfold addedOf addedPreClip
  by_cases hm : 0 < occ ∧ g < 1
  · obtain ⟨hmo, hmg⟩ := hm
    simp only [if_pos (And.intro hmo hmg)]
    by_cases hn : g + occ ≤ (1 : ℚ)
    · have hno : ¬ (1 : ℚ) < occ := by linarith
      simp only [if_pos hn, if_neg hno]
      constructor <;> linarith
    · have h1' : (1 : ℚ) < g + occ := not_le.mp hn
      simp only [if_neg hn, if_pos h1']
      have hml := min_le_left (1 - g) occ
      have hge : (0 : ℚ) ≤ min (1 - g) occ := le_min (by linarith) (by linarith)
      constructor <;> linarith
  · simp only [if_neg hm]
    exact ⟨h0, h1⟩

lemma foldl_stepVoxel_bounds (l : List StructIn) (st : VoxelState)
    (hl : ∀ s ∈ l, 0 ≤ s.occ)
    (h0 : 0 ≤ st.global_volume_fractions) (h1 : st.global_volume_fractions ≤ 1) :
    0 ≤ (l.foldl stepVoxel st).global_volume_fractions ∧
      (l.foldl stepVoxel st).global_volume_fractions ≤ 1 := by
  induction l generalizing st with
  | nil => exact ⟨h0, h1⟩
  | cons s ss ih =>
      rw [List.foldl_cons]
      have hb := stepVoxel_global_bounds st s (hl s (by simp)) h0 h1
      exact ih (stepVoxel st s) (fun t ht => hl t (by simp [ht])) hb.1 hb.2

lemma mem_insertByPriority (s t : StructIn) (l : List StructIn) :
    t ∈ insertByPriority s l ↔ t = s ∨ t ∈ l := by
  induction l with
  | nil => simp [insertByPriority]
  | cons u us ih =>
      unfold insertByPriority
      split_ifs with h
      · simp only [List.mem_cons, ih]
        tauto
      · simp

lemma mem_priority_sorted (t : StructIn) (l : List StructIn) :
    t ∈ priority_sorted_structures l → t ∈ l := by
  unfold priority_sorted_structures
  induction l with
  | nil => simp
  | cons u us ih =>
      intro h
      rw [List.foldr_cons, mem_insertByPriority] at h
      rcases h with h | h
      · simp [h]
      · exact List.mem_cons_of_mem u (ih h)

/-- The state component of the audit-collecting fold is the plain
`stepVoxel` fold. -/
lemma create_fold_fst (l : List StructIn) (st : VoxelState) (acc : List ℚ) :
    (l.foldl (fun acc s =>
        (stepVoxel acc.1 s, acc.2 ++ [addedOf acc.1.global_volume_fractions s.occ]))
      (st, acc)).1 = l.foldl stepVoxel st := by
  induction l generalizing st acc with
  | nil => rfl
  | cons s ss ih =>
      rw [List.foldl_cons, List.foldl_cons]
      exact ih (stepVoxel st s) (acc ++ [addedOf st.global_volume_fractions s.occ])

/-- Claim C2: with all occupancies in `[0, 1]`, the running global
occupancy stays in `[0, 1]` after every structure iteration (every
prefix of the sorted pass) and after the full pass, however large the
occupancy sums are. -/
theorem global_occupancy_invariant (structs : List StructIn)
    (h : ∀ s ∈ structs, 0 ≤ s.occ ∧ s.occ ≤ 1) :
    (∀ n : ℕ,
      0 ≤ (((priority_sorted_structures structs).take n).foldl stepVoxel
        initVoxelState).global_volume_fractions ∧
      (((priority_sorted_structures structs).take n).foldl stepVoxel
        initVoxelState).global_volume_fractions ≤ 1) ∧
    (0 ≤ (create_simulation_volume structs).1.global_volume_fractions ∧
      (create_simulation_volume structs).1.global_volume_fractions ≤ 1) := by
  have hocc : ∀ s ∈ priority_sorted_structures structs, 0 ≤ s.occ :=
    fun s hs => (h s (mem_priority_sorted s structs hs)).1
  constructor
  · intro n
    apply foldl_stepVoxel_bounds
    · intro s hs
      exact hocc s (List.mem_of_mem_take hs)
    · norm_num [initVoxelState]
    · norm_num [initVoxelState]
  · unfold create_simulation_volume
    rw [create_fold_fst]
    apply foldl_stepVoxel_bounds
    · exact hocc
    · norm_num [initVoxelState]
    · norm_num [initVoxelState]

/-- A half-occupancy structure for the invariant witness. -/
def structW : StructIn := ⟨0, 1 / 2, Option.none, some ("W"), fun _ => Option.none⟩

/-- Witness for C2 on the one-structure list `[structW]`, checked after
the first iteration and after the full pass. -/
theorem global_occupancy_invariant_witness :
    (0 ≤ (((priority_sorted_structures [structW]).take 1).foldl stepVoxel
        initVoxelState).global_volume_fractions ∧
      (((priority_sorted_structures [structW]).take 1).foldl stepVoxel
        initVoxelState).global_volume_fractions ≤ 1) ∧
    (0 ≤ (create_simulation_volume [structW]).1.global_volume_fractions ∧
      (create_simulation_volume [structW]).1.global_volume_fractions ≤ 1) := by
  have h : ∀ s ∈ [structW], 0 ≤ s.occ ∧ s.occ ≤ 1 := by
    intro s hs
    rw [List.mem_singleton] at hs
    subst hs
    refine ⟨by norm_num [structW], by norm_num [structW]⟩
  exact ⟨(global_occupancy_invariant [structW] h).1 1,
    (global_occupancy_invariant [structW] h).2⟩

/-- A structure with zero occupancy at the voxel, higher priority. -/
def structZero : StructIn := ⟨2, 0, Option.none, some ("Z"), fun _ => Option.none⟩

/-- Claim C3 counterexample: after structure A fills the voxel to 0.6,
the audit slice entry recorded for a structure with occupancy 0 there —
an ineligible voxel — is 0.6 (the untouched naive sum `global + occ`),
not 0 as the claim requires. -/
theorem audit_nonzero_at_ineligible_voxel :
    (create_simulation_volume [structA, structZero]).2 = [3 / 5, 3 / 5] ∧
    structZero.occ = 0 ∧ ¬ ((3 : ℚ) / 5 = 0) := by
  refine ⟨?_, by norm_num [structZero], by norm_num⟩
  norm_num [create_simulation_volume, priority_sorted_structures, insertByPriority,
    structA, structZero, stepVoxel, addedOf, addedPreClip, initVoxelState, resolveSeg]

/-- Claim C3 (amended): the audit value recorded for a structure is `occ`
at eligible voxels with `global + occ ≤ 1` and `min (1 - global, occ)`
at eligible voxels with `global + occ > 1`; at ineligible voxels it is
not 0 in general: it equals the prior global occupancy where the
structure's occupancy is 0, and 0 where the voxel is already full
(`global ≥ 1`) with positive occupancy. -/
theorem audit_added_fraction_characterization (g occ : ℚ)
    (h0 : 0 ≤ g) (h1 : g ≤ 1) (h2 : 0 ≤ occ) :
    addedOf g occ =
      if 0 < occ ∧ g < 1 then
        (if g + occ ≤ 1 then occ else min (1 - g) occ)
      else (if occ = 0 then g else 0) := by
  unfold addedOf addedPreClip
  by_cases hm : 0 < occ ∧ g < 1
  · obtain ⟨hmo, hmg⟩ := hm
    simp only [if_pos (And.intro hmo hmg)]
    by_cases hn : g + occ ≤ (1 : ℚ)
    · have hno : ¬ (1 : ℚ) < occ := by linarith
      simp only [if_pos hn, if_neg hno]
    · have h1' : (1 : ℚ) < g + occ := not_le.mp hn
      simp only [if_neg hn, if_pos h1']
  · simp only [if_neg hm]
    by_cases hz : occ = 0
    · subst hz
      simp only [add_zero, if_pos rfl]
      by_cases hg0 : g ≤ (0 : ℚ)
      · have hg : g = 0 := le_antisymm hg0 h0
        subst hg
        norm_num
      · have hno : ¬ g ≤ (0 : ℚ) := hg0
        simp only [if_neg hno]
        have hn1 : ¬ (1 : ℚ) < g := not_lt.mpr h1
        simp only [if_pos] at *
        rw [if_neg hn1]
    · have hocc : 0 < occ := lt_of_le_of_ne h2 (Ne.symm hz)
      have hg1 : ¬ g < 1 := fun hlt => hm ⟨hocc, hlt⟩
      have hg : g = 1 := le_antisymm h1 (not_lt.mp hg1)
      subst hg
      have hc1 : ¬ (1 + occ ≤ (0 : ℚ)) := by linarith
      simp only [if_neg hc1]
      have hc2 : (1 : ℚ) < 1 + occ := by linarith
      simp only [if_pos hc2, if_neg hz]
      rw [show (1 : ℚ) - 1 = 0 by norm_num, min_eq_left h2]

/-- Witness for the amended C3 at `g = 3/5`, `occ = 0`: the audit value
is the prior global occupancy `3/5`. -/
theorem audit_added_fraction_characterization_witness :
    addedOf (3 / 5) 0 =
      if 0 < (0 : ℚ) ∧ (3 / 5 : ℚ) < 1 then
        (if (3 / 5 : ℚ) + 0 ≤ 1 then 0 else min (1 - 3 / 5) 0)
      else (if (0 : ℚ) = 0 then 3 / 5 else 0) :=
  audit_added_fraction_characterization (3 / 5) 0 (by norm_num) (by norm_num) (by norm_num)

end Simpa
